import Mathlib

/-!
Shallow embedding of the Smart-Diet-Planner nutrition core
(src/models/user.py, src/models/food.py, src/models/food_log.py).

Python floats are modelled as exact rationals (ℚ); Python `round(x, n)`
is modelled as round-half-to-even on rationals (`pyRound`), matching
CPython's rounding mode on exactly representable values.  SQLAlchemy
queries over the foods / logs / summaries tables are modelled as pure
functions over in-memory lists; `ORDER BY` is modelled with
`List.insertionSort` on the same key the query uses.  Python exceptions
(`ValueError`, `ZeroDivisionError`) are modelled with `Except String`.
-/

/-- Round-half-to-even to an integer, the rounding CPython's `round` uses. -/
def pyRoundInt (q : ℚ) : ℤ :=
  if q - ⌊q⌋ < 1/2 then ⌊q⌋
  else if 1/2 < q - ⌊q⌋ then ⌊q⌋ + 1
  else if Even ⌊q⌋ then ⌊q⌋ else ⌊q⌋ + 1

/-- Python `round(q, n)` on exact rationals. -/
def pyRound (q : ℚ) (n : ℕ) : ℚ := (pyRoundInt (q * 10 ^ n) : ℚ) / 10 ^ n

/-- Python `a / b`: raises `ZeroDivisionError` on a zero divisor. -/
def pydiv (a b : ℚ) : Except String ℚ :=
  if b = 0 then Except.error "ZeroDivisionError" else Except.ok (a / b)

/-- Contiguous-subsequence test on char lists (Python `pat in s`). -/
def containsSeq (pat : List Char) : List Char → Bool
  | [] => pat.isEmpty
  | c :: rest => pat.isPrefixOf (c :: rest) || containsSeq pat rest

/-- Substring test on strings (Python `pat in s`). -/
def strContains (s pat : String) : Bool :=
  containsSeq pat.toList s.toList

/-- ASCII lower-casing of one character (the names and enum strings this
code lower-cases are all ASCII). -/
def lowerChar (c : Char) : Char :=
  if 65 ≤ c.toNat ∧ c.toNat ≤ 90 then Char.ofNat (c.toNat + 32) else c

/-- Python `s.lower()` on ASCII strings. -/
def pyLower (s : String) : String :=
  String.mk (s.toList.map lowerChar)

/-- `users` table row (the columns the nutrition core reads). -/
structure User where
  id : ℕ
  gender : String
  age : ℤ
  height : ℚ
  weight : ℚ
  activity_level : String
  food_preferences : String
  is_diabetic : Bool
  disliked_foods : Option String
  daily_calorie_goal : Option ℚ
  protein_goal : Option ℚ
  carb_goal : Option ℚ
  fat_goal : Option ℚ
deriving DecidableEq, Repr

/-- `foods` table row (the columns the nutrition core reads). -/
structure Food where
  id : ℕ
  name : String
  name_hindi : Option String
  category : String
  food_type : String
  calories_per_100g : ℚ
  protein_per_100g : ℚ
  carbs_per_100g : ℚ
  fat_per_100g : ℚ
  fiber_per_100g : ℚ
  gi_index : Option ℤ
  description : Option String
  is_active : Bool
deriving DecidableEq, Repr

/-- `food_logs` table row (the columns the aggregation engine reads). -/
structure FoodLog where
  user_id : ℕ
  food_id : ℕ
  quantity_grams : ℚ
  meal_type : String
  calories_consumed : ℚ
  protein_consumed : ℚ
  carbs_consumed : ℚ
  fat_consumed : ℚ
  date_logged : ℕ
deriving DecidableEq, Repr

/-- `daily_summaries` table row. -/
structure DailySummary where
  user_id : ℕ
  date : ℕ
  total_calories : ℚ
  total_protein : ℚ
  total_carbs : ℚ
  total_fat : ℚ
  calorie_goal : ℚ
  protein_goal : ℚ
  carb_goal : ℚ
  fat_goal : ℚ
  meals_logged : ℕ
deriving DecidableEq, Repr

/-- The relational store the models query. -/
structure DB where
  users : List User
  foods : List Food
  logs : List FoodLog
  summaries : List DailySummary
deriving DecidableEq, Repr

/-! ### A model of `json.loads`

`User.get_disliked_foods` feeds the raw `disliked_foods` column to
`json.loads` and swallows `json.JSONDecodeError`, so the model needs the
exact accept/reject boundary of CPython's decoder (strict mode, default
`allow_nan`): JSON values `null` / `true` / `false` / numbers (no leading
zeros, optional fraction and exponent) / `NaN` / `Infinity` /
`-Infinity` / strings (raw control characters rejected, the standard
escapes and `\uXXXX` accepted) / arrays / objects, with JSON whitespace
and no trailing text.  Two declared approximations that leave the
accept/reject boundary untouched: float values are exact rationals
instead of IEEE doubles, and a `\uXXXX` escape denoting a lone surrogate
half (no Lean `Char`) keeps its parse accepted but its character
replaced.  CPython's recursion limit (a `RecursionError` on
pathologically nested input, a resource condition like out-of-memory) is
outside the model; the parser's fuel is two units per input character
plus slack, which the grammar can never exhaust. -/

/-- JSON whitespace skip. -/
def jsonWs (cs : List Char) : List Char :=
  cs.dropWhile (fun c => c == ' ' || c == '\t' || c == '\n' || c == '\r')

/-- The JSON values `json.loads` can return (`NaN` / `±Infinity` are the
`allow_nan` extension and carry no rational value). -/
inductive Json where
  | null
  | bool (b : Bool)
  | num (v : ℚ)
  | nan
  | inf (neg : Bool)
  | str (s : String)
  | arr (elems : List Json)
  | obj (members : List (String × Json))

/-- Value of one hex digit in a `\uXXXX` escape. -/
def hexDigitVal (c : Char) : Option ℕ :=
  if '0' ≤ c ∧ c ≤ '9' then some (c.toNat - 48)
  else if 'a' ≤ c ∧ c ≤ 'f' then some (c.toNat - 87)
  else if 'A' ≤ c ∧ c ≤ 'F' then some (c.toNat - 55)
  else none

/-- The single-character JSON string escapes. -/
def escChar (e : Char) : Option Char :=
  if e = '"' then some '"'
  else if e = '\\' then some '\\'
  else if e = '/' then some '/'
  else if e = 'b' then some (Char.ofNat 8)
  else if e = 'f' then some (Char.ofNat 12)
  else if e = 'n' then some '\n'
  else if e = 'r' then some (Char.ofNat 13)
  else if e = 't' then some '\t'
  else none

/-- JSON string body after the opening quote: raw control characters are
rejected (strict mode), unknown escapes and short `\uXXXX` escapes are
rejected.  Consumes at least one character per fuel unit. -/
def parseJStringBody : ℕ → List Char → Option (List Char × List Char)
  | 0, _ => none
  | _ + 1, [] => none
  | fuel + 1, c :: rest =>
    if c = '"' then some ([], rest)
    else if c = '\\' then
      match rest with
      | 'u' :: d1 :: d2 :: d3 :: d4 :: rest2 =>
        match hexDigitVal d1, hexDigitVal d2, hexDigitVal d3, hexDigitVal d4 with
        | some a, some b, some cc, some dd =>
          (parseJStringBody fuel rest2).map
            (fun p => (Char.ofNat (((a * 16 + b) * 16 + cc) * 16 + dd) :: p.1, p.2))
        | _, _, _, _ => none
      | e :: rest2 =>
        match escChar e with
        | none => none
        | some ec => (parseJStringBody fuel rest2).map (fun p => (ec :: p.1, p.2))
      | [] => none
    else if c.toNat < 32 then none
    else (parseJStringBody fuel rest).map (fun p => (c :: p.1, p.2))

/-- Decimal value of a digit run. -/
def digitsToNat (ds : List Char) : ℕ :=
  ds.foldl (fun a c => a * 10 + (c.toNat - 48)) 0

/-- Optional fraction part `.digits`; like CPython's number regex, a dot
not followed by a digit is left unconsumed (the error then surfaces at
the delimiter check). -/
def parseFrac (cs : List Char) : (ℕ × ℕ) × List Char :=
  match cs with
  | '.' :: r =>
    let ds := r.takeWhile (fun c => c.isDigit)
    if ds.isEmpty then ((0, 0), cs)
    else ((digitsToNat ds, ds.length), r.dropWhile (fun c => c.isDigit))
  | _ => ((0, 0), cs)

/-- Optional exponent part `[eE][+-]?digits`, unconsumed when incomplete. -/
def parseExp (cs : List Char) : ℤ × List Char :=
  match cs with
  | e :: r =>
    if e = 'e' || e = 'E' then
      match r with
      | '+' :: r2 =>
        let ds := r2.takeWhile (fun c => c.isDigit)
        if ds.isEmpty then (0, cs)
        else ((digitsToNat ds : ℤ), r2.dropWhile (fun c => c.isDigit))
      | '-' :: r2 =>
        let ds := r2.takeWhile (fun c => c.isDigit)
        if ds.isEmpty then (0, cs)
        else (-(digitsToNat ds : ℤ), r2.dropWhile (fun c => c.isDigit))
      | r2 =>
        let ds := r2.takeWhile (fun c => c.isDigit)
        if ds.isEmpty then (0, cs)
        else ((digitsToNat ds : ℤ), r2.dropWhile (fun c => c.isDigit))
    else (0, cs)
  | [] => (0, cs)

/-- Exact rational value of a parsed JSON number. -/
def jsonNumVal (neg : Bool) (ip fr fl : ℕ) (ex : ℤ) : ℚ :=
  (if neg then -1 else 1) * ((ip : ℚ) + (fr : ℚ) / 10 ^ fl) * (10 : ℚ) ^ ex

/-- JSON number: `-?(0|[1-9][0-9]*)` then optional fraction and exponent,
CPython's regex; after a leading `0` no further integer digits are
consumed, so `[007]` fails at the delimiter exactly as in CPython. -/
def parseNumber (cs : List Char) : Option (Json × List Char) :=
  let (neg, cs1) := match cs with
    | '-' :: r => (true, r)
    | _ => (false, cs)
  match cs1 with
  | '0' :: rest =>
    let (fp, rest1) := parseFrac rest
    let (ex, rest2) := parseExp rest1
    some (Json.num (jsonNumVal neg 0 fp.1 fp.2 ex), rest2)
  | c :: _ =>
    if c.isDigit then
      let ds := cs1.takeWhile (fun x => x.isDigit)
      let rest := cs1.dropWhile (fun x => x.isDigit)
      let (fp, rest1) := parseFrac rest
      let (ex, rest2) := parseExp rest1
      some (Json.num (jsonNumVal neg (digitsToNat ds) fp.1 fp.2 ex), rest2)
    else none
  | [] => none

mutual

/-- One JSON value at the head of the input (whitespace already
skipped), returning the remaining input.  Every mutual call strictly
decreases the fuel, and every two fuel levels consume at least one input
character, so fuel `2·length + 4` can never run out. -/
def parseValue : ℕ → List Char → Option (Json × List Char)
  | 0, _ => none
  | _ + 1, [] => none
  | fuel + 1, cs =>
    match cs with
    | '"' :: rest => (parseJStringBody fuel rest).map (fun p => (Json.str (String.mk p.1), p.2))
    | '[' :: rest =>
      match jsonWs rest with
      | ']' :: r2 => some (Json.arr [], r2)
      | cs1 => (parseElems fuel cs1).map (fun p => (Json.arr p.1, p.2))
    | '{' :: rest =>
      match jsonWs rest with
      | '}' :: r2 => some (Json.obj [], r2)
      | cs1 => (parseMembers fuel cs1).map (fun p => (Json.obj p.1, p.2))
    | cs =>
      if "null".toList.isPrefixOf cs then some (Json.null, cs.drop 4)
      else if "true".toList.isPrefixOf cs then some (Json.bool true, cs.drop 4)
      else if "false".toList.isPrefixOf cs then some (Json.bool false, cs.drop 5)
      else if "NaN".toList.isPrefixOf cs then some (Json.nan, cs.drop 3)
      else if "Infinity".toList.isPrefixOf cs then some (Json.inf false, cs.drop 8)
      else if "-Infinity".toList.isPrefixOf cs then some (Json.inf true, cs.drop 9)
      else parseNumber cs

/-- Array elements from the first element on: `value (ws ',' ws value)*
ws ']'`; a trailing comma or missing delimiter fails. -/
def parseElems : ℕ → List Char → Option (List Json × List Char)
  | 0, _ => none
  | fuel + 1, cs =>
    match parseValue fuel cs with
    | none => none
    | some (v, r) =>
      match jsonWs r with
      | ',' :: r2 => (parseElems fuel (jsonWs r2)).map (fun p => (v :: p.1, p.2))
      | ']' :: r2 => some ([v], r2)
      | _ => none

/-- Object members from the first key on: keys must be double-quoted
strings, `key ws ':' ws value (ws ',' ws …)* ws` then the closing brace. -/
def parseMembers : ℕ → List Char → Option (List (String × Json) × List Char)
  | 0, _ => none
  | fuel + 1, cs =>
    match cs with
    | '"' :: r =>
      match parseJStringBody fuel r with
      | none => none
      | some (key, r1) =>
        match jsonWs r1 with
        | ':' :: r2 =>
          match parseValue fuel (jsonWs r2) with
          | none => none
          | some (v, r3) =>
            match jsonWs r3 with
            | ',' :: r4 =>
              (parseMembers fuel (jsonWs r4)).map
                (fun p => ((String.mk key, v) :: p.1, p.2))
            | '}' :: r4 => some ([(String.mk key, v)], r4)
            | _ => none
        | _ => none
    | _ => none

end

/-- The model of `json.loads`: leading/trailing JSON whitespace, exactly
one value, no trailing text; `none` is a raised `JSONDecodeError`. -/
def jsonParse (s : String) : Option Json :=
  match parseValue (2 * s.length + 4) (jsonWs s.toList) with
  | none => none
  | some (v, rest) => if (jsonWs rest).isEmpty then some v else none

/-- Python `id == element` for an int id against a JSON value: numeric
equality also matches floats with integral value and bools (`True == 1`,
`False == 0`); everything else compares unequal. -/
def pyEqInt (id : ℤ) : Json → Bool
  | Json.num v => (id : ℚ) = v
  | Json.bool b => id = (if b then 1 else 0)
  | _ => false

/-- Python `id in disliked` for an int id: list membership via `==`, key
membership for a dict (an int never equals a string key), and a raised
`TypeError` for a string or any non-container value. -/
def pyIn (id : ℤ) : Json → Except String Bool
  | Json.arr xs => Except.ok (xs.any (pyEqInt id))
  | Json.obj _ => Except.ok false
  | _ => Except.error "TypeError"

/-- The ids whose membership test `id in value` answers True, when the
value is a list; the empty set for every value on which Python's `in`
either answers False or raises.  This is the total idealization of the
dislike set the Boolean suitability predicate consumes; the fallible
`pyIn` above is the faithful semantics. -/
def jsonIntElems : Json → List ℤ
  | Json.arr xs =>
    xs.filterMap (fun j =>
      match j with
      | Json.num v => if v.den = 1 then some v.num else none
      | Json.bool b => some (if b then 1 else 0)
      | _ => none)
  | _ => []

namespace User

/-- `User.get_disliked_foods`, raw layer: the empty list for a falsy
column value, the empty list when `json.loads` raises
`JSONDecodeError`, otherwise whatever value `json.loads` parsed (the
method does not check that it is a list). -/
def get_disliked_foods_json (u : User) : Json :=
  match u.disliked_foods with
  | none => Json.arr []
  | some s =>
    if s = "" then Json.arr []
    else match jsonParse s with
      | none => Json.arr []
      | some j => j

/-- The dislike-id set consumed by the Boolean suitability predicate:
the ids Python's `self.id in disliked` answers True for.  Exact wherever
`in` does not raise (lists via `==`, dicts always False for an int id);
the empty set where `in` would raise `TypeError` (string or
non-container value) — `Food.is_suitable_for_user_py` below keeps the
faithful fallible semantics of that step. -/
def get_disliked_foods (u : User) : List ℤ :=
  jsonIntElems u.get_disliked_foods_json

/-- `User.calculate_bmr` (Mifflin-St Jeor). -/
def calculate_bmr (u : User) : ℚ :=
  if pyLower u.gender = "male" then
    10 * u.weight + 6.25 * u.height - 5 * (u.age : ℚ) + 5
  else
    10 * u.weight + 6.25 * u.height - 5 * (u.age : ℚ) - 161

/-- The activity-multiplier lookup in `User.calculate_tdee`
(`activity_multipliers.get(self.activity_level, 1.2)`). -/
def activity_multiplier (level : String) : ℚ :=
  if level = "Sedentary" then 1.2
  else if level = "Lightly Active" then 1.375
  else if level = "Moderately Active" then 1.55
  else if level = "Very Active" then 1.725
  else if level = "Extremely Active" then 1.9
  else 1.2

/-- `User.calculate_tdee`. -/
def calculate_tdee (u : User) : ℚ :=
  u.calculate_bmr * activity_multiplier u.activity_level

end User

/-- Result shape of `Food.calculate_nutrition`. -/
structure Nutrition where
  calories : ℚ
  protein : ℚ
  carbs : ℚ
  fat : ℚ
  fiber : ℚ
deriving DecidableEq, Repr

/-- Result shape of `Food.get_serving_units`. -/
structure ServingUnits where
  unit : String
  grams_per_unit : ℚ
  common_quantities : List ℚ
deriving DecidableEq, Repr

namespace Food

/-- `Food.calculate_nutrition`: linear scale by `quantity_grams / 100`,
each field rounded to 1 decimal. -/
def calculate_nutrition (f : Food) (quantity_grams : ℚ) : Nutrition :=
  let multiplier := quantity_grams / 100
  { calories := pyRound (f.calories_per_100g * multiplier) 1
    protein := pyRound (f.protein_per_100g * multiplier) 1
    carbs := pyRound (f.carbs_per_100g * multiplier) 1
    fat := pyRound (f.fat_per_100g * multiplier) 1
    fiber := pyRound (f.fiber_per_100g * multiplier) 1 }

/-- `Food.is_suitable_for_diabetic`: unknown GI is assumed safe. -/
def is_suitable_for_diabetic (f : Food) : Bool :=
  match f.gi_index with
  | none => true
  | some gi => gi ≤ 55

/-- `Food.is_suitable_for_user`. -/
def is_suitable_for_user (f : Food) (u : User) : Bool :=
  if u.food_preferences = "Vegetarian" && f.food_type ≠ "Vegetarian" then false
  else if u.food_preferences = "Eggetarian" && f.food_type = "Non-Vegetarian" then false
  else if u.is_diabetic && !f.is_suitable_for_diabetic then false
  else if u.get_disliked_foods.contains (f.id : ℤ) then false
  else true

/-- `Food.is_suitable_for_user` with the dislike check given its faithful
fallible semantics: `self.id in disliked` on the raw `json.loads` result,
which raises `TypeError` when a valid-but-non-container JSON value was
stored.  The earlier checks return before the dislike step exactly as the
Python early returns do. -/
def is_suitable_for_user_py (f : Food) (u : User) : Except String Bool :=
  if u.food_preferences = "Vegetarian" && f.food_type ≠ "Vegetarian" then Except.ok false
  else if u.food_preferences = "Eggetarian" && f.food_type = "Non-Vegetarian" then Except.ok false
  else if u.is_diabetic && !f.is_suitable_for_diabetic then Except.ok false
  else do
    let hit ← pyIn (f.id : ℤ) u.get_disliked_foods_json
    if hit then Except.ok false else Except.ok true

/-- `Food.get_nutrition_density`: protein per calorie × 100, rounded to 2
decimals, with an explicit guard on zero calories.  The division is the
fallible Python division. -/
def get_nutrition_density (f : Food) : Except String ℚ :=
  if f.calories_per_100g = 0 then Except.ok 0
  else do
    let r ← pydiv f.protein_per_100g f.calories_per_100g
    Except.ok (pyRound (r * 100) 2)

/-- `Food.get_serving_units`: first matching rule of the if/elif chain wins. -/
def get_serving_units (f : Food) : ServingUnits :=
  let n := pyLower f.name
  if ["idli", "dosa", "vada", "uttapam", "dhokla", "khandvi"].any (fun w => strContains n w) then
    ⟨"piece", 30, [1, 2, 3, 4, 5, 6]⟩
  else if ["rice", "biryani", "pulao", "kheer", "pongal"].any (fun w => strContains n w) then
    ⟨"cup", 150, [0.5, 1, 1.5, 2]⟩
  else if ["dal", "curry", "sabzi", "sambar", "rasam", "kadhi"].any (fun w => strContains n w) then
    ⟨"cup", 200, [0.5, 1, 1.5, 2]⟩
  else if ["roti", "chapati", "naan", "paratha", "puri", "kulcha"].any (fun w => strContains n w) then
    ⟨"piece", 40, [1, 2, 3, 4, 5, 6]⟩
  else if ["laddu", "halwa", "burfi", "gulab jamun", "rasgulla", "sweet"].any (fun w => strContains n w) then
    ⟨"piece", 25, [1, 2, 3, 4, 5, 6]⟩
  else if ["samosa", "pakora", "bhel", "chat", "namkeen"].any (fun w => strContains n w) then
    ⟨"piece", 20, [1, 2, 3, 4, 5, 10]⟩
  else if ["tea", "coffee", "juice", "milk", "drink"].any (fun w => strContains n w) then
    ⟨"cup", 150, [1, 1.5, 2, 2.5, 3]⟩
  else if f.category = "Vegetables" then
    ⟨"cup", 150, [0.5, 1, 1.5, 2]⟩
  else if f.category = "Fruits" then
    ⟨"piece", 100, [0.5, 1, 1.5, 2, 3]⟩
  else
    ⟨"grams", 1, [50, 100, 150, 200, 250]⟩

/-- Case-insensitive substring match, the model of SQL `ilike '%q%'`. -/
def ilike (field : String) (q : String) : Bool :=
  strContains (pyLower field) (pyLower q)

/-- `ilike` over a nullable column: SQL `NULL ilike x` is not a match. -/
def ilikeOpt (field : Option String) (q : String) : Bool :=
  match field with
  | none => false
  | some s => ilike s q

/-- The OR of the four `ilike` clauses in `Food.search`. -/
def textMatch (q : String) (f : Food) : Bool :=
  ilike f.name q || ilikeOpt f.name_hindi q || ilike f.category q ||
    ilikeOpt f.description q

end Food

/-- Lexicographic "less or equal" on char lists, the model of SQLite's
byte-wise BINARY collation (UTF-8 byte order equals codepoint order). -/
def charListLe : List Char → List Char → Bool
  | [], _ => true
  | _ :: _, [] => false
  | a :: as, b :: bs => a < b || (a == b && charListLe as bs)

/-- Name-ascending comparison on strings for `ORDER BY`. -/
def strLe (a b : String) : Bool := charListLe a.toList b.toList

namespace Food

/-- Name-ascending order used by `order_by(Food.name)`. -/
def nameLe (f g : Food) : Prop := strLe f.name g.name = true

instance : DecidableRel nameLe := fun f g => by
  unfold nameLe; infer_instance

/-- The Python pattern `if arg: query = query.filter(...)`: an absent or
empty (falsy) string argument skips its filter. -/
def optFilter (l : List Food) (o : Option String) (p : String → Food → Bool) : List Food :=
  match o with
  | none => l
  | some s => if s = "" then l else l.filter (p s)

/-- The query built by `Food.search` before ordering and limiting: active
filter, then the optional text / category / food-type filters. -/
def searchFilter (catalog : List Food) (query : Option String)
    (category : Option String) (food_type : Option String) : List Food :=
  optFilter
    (optFilter
      (optFilter (catalog.filter (fun f => f.is_active)) query (fun q f => textMatch q f))
      category (fun c f => f.category == c))
    food_type (fun t f => f.food_type == t)

/-- `Food.search`: the filtered query in name-ascending order, capped at
`limit`, then the user-suitability post-filter. -/
def search (catalog : List Food) (query : Option String) (user : Option User)
    (category : Option String) (food_type : Option String) (limit : ℕ) : List Food :=
  let limited := (List.insertionSort nameLe (searchFilter catalog query category food_type)).take limit
  match user with
  | none => limited
  | some u => limited.filter (fun f => f.is_suitable_for_user u)

end Food

namespace Food

/-- The `db.case` rank of the recommendation query: South Indian=1,
Dal & Lentils=2, Rice & Grains=3, Vegetables=4, else 5. -/
def categoryPriority (f : Food) : ℕ :=
  if f.category = "South Indian" then 1
  else if f.category = "Dal & Lentils" then 2
  else if f.category = "Rice & Grains" then 3
  else if f.category = "Vegetables" then 4
  else 5

/-- The `protein_per_100g / calories_per_100g` sort key.  SQL division by
zero yields NULL; in the rational model `x / 0 = 0`, which only affects the
order among candidates, never membership. -/
def density (f : Food) : ℚ := f.protein_per_100g / f.calories_per_100g

/-- Order of the preferred-pool query: category rank ascending, then
nutrition density descending. -/
def prefLe (f g : Food) : Prop :=
  categoryPriority f < categoryPriority g ∨
    (categoryPriority f = categoryPriority g ∧ density g ≤ density f)

instance : DecidableRel prefLe := fun f g => by
  unfold prefLe; infer_instance

/-- Order of the fallback-pool query: nutrition density descending. -/
def densityGe (f g : Food) : Prop := density g ≤ density f

instance : DecidableRel densityGe := fun f g => by
  unfold densityGe; infer_instance

/-- The meal-type pre-filter of `get_recommended_for_user`. -/
def mealTypeFilter (meal : String) (f : Food) : Bool :=
  let m := pyLower meal
  if m = "breakfast" || m = "mid-morning" then decide ((1.5 : ℚ) ≤ f.fiber_per_100g)
  else if m = "lunch" || m = "dinner" then decide ((3 : ℚ) ≤ f.protein_per_100g)
  else if m = "evening snack" || m = "late night" then decide (f.calories_per_100g ≤ 250)
  else true

/-- The diet-type filter stage of the recommendation query. -/
def typeFilterQ (u : User) (l : List Food) : List Food :=
  if u.food_preferences = "Vegetarian" then
    l.filter (fun f => f.food_type == "Vegetarian")
  else if u.food_preferences = "Eggetarian" then
    l.filter (fun f => f.food_type == "Vegetarian" || f.food_type == "Eggetarian")
  else l

/-- The diabetic low-GI filter stage (`db.or_(gi == None, gi <= 55)`). -/
def giFilterQ (u : User) (l : List Food) : List Food :=
  if u.is_diabetic then
    l.filter (fun f => match f.gi_index with
      | none => true
      | some gi => gi ≤ 55)
  else l

/-- The disliked-ids exclusion stage (skipped when the list is empty). -/
def dislikeFilterQ (u : User) (l : List Food) : List Food :=
  if u.get_disliked_foods.isEmpty then l
  else l.filter (fun f => !(u.get_disliked_foods.contains (f.id : ℤ)))

/-- The meal-type pre-filter stage (skipped for a falsy meal type). -/
def mealFilterQ (meal_type : Option String) (l : List Food) : List Food :=
  match meal_type with
  | none => l
  | some mt => if mt = "" then l else l.filter (fun f => mealTypeFilter mt f)

/-- The `query_filter` both pools of `get_recommended_for_user` derive
from: active, diet-type, diabetic-GI, dislikes, meal-type filters. -/
def recommendBase (catalog : List Food) (u : User) (meal_type : Option String) : List Food :=
  mealFilterQ meal_type
    (dislikeFilterQ u (giFilterQ u (typeFilterQ u (catalog.filter (fun f => f.is_active)))))

/-- The four categories of the preferred pool. -/
def preferredCategories : List String :=
  ["South Indian", "Dal & Lentils", "Rice & Grains", "Vegetables"]

/-- `Food.get_recommended_for_user`: up to `limit` preferred-category foods
ordered by category rank then density, back-filled from the other
categories by density when the preferred pool falls short. -/
def get_recommended_for_user (catalog : List Food) (u : User)
    (meal_type : Option String) (limit : ℕ) : List Food :=
  let base := recommendBase catalog u meal_type
  let south_indian_foods :=
    (List.insertionSort prefLe
      (base.filter (fun f => preferredCategories.contains f.category))).take limit
  if south_indian_foods.length < limit then
    let remaining_limit := limit - south_indian_foods.length
    let other_foods :=
      (List.insertionSort densityGe
        (base.filter (fun f => !(preferredCategories.contains f.category)))).take remaining_limit
    south_indian_foods ++ other_foods
  else south_indian_foods

end Food

namespace FoodLog

/-- `FoodLog.create_from_food`: `ValueError` when the food id resolves to
no food, otherwise a log row with nutrition derived by
`Food.calculate_nutrition`. -/
def create_from_food (db : DB) (user_id food_id : ℕ) (quantity_grams : ℚ)
    (meal_type : String) (log_date : ℕ) : Except String FoodLog :=
  match db.foods.find? (fun f => f.id == food_id) with
  | none => Except.error "Food not found"
  | some food =>
    let nutrition := food.calculate_nutrition quantity_grams
    Except.ok
      { user_id := user_id
        food_id := food_id
        quantity_grams := quantity_grams
        meal_type := meal_type
        calories_consumed := nutrition.calories
        protein_consumed := nutrition.protein
        carbs_consumed := nutrition.carbs
        fat_consumed := nutrition.fat
        date_logged := log_date }

end FoodLog

/-- `DailySummary.query.filter_by(user_id=..., date=...).first()`. -/
def findSummary (db : DB) (uid d : ℕ) : Option DailySummary :=
  db.summaries.find? (fun s => s.user_id == uid && s.date == d)

/-- `User.query.get(user_id)`. -/
def findUser (db : DB) (uid : ℕ) : Option User :=
  db.users.find? (fun u => u.id == uid)

/-- Python `x or default` on a nullable float column: the default replaces
both `None` and the falsy value `0.0`. -/
def pyOr (o : Option ℚ) (dflt : ℚ) : ℚ :=
  match o with
  | none => dflt
  | some v => if v = 0 then dflt else v

/-- The logs `update_from_logs` aggregates:
`FoodLog.query.filter_by(user_id=..., date_logged=...)`. -/
def logsFor (db : DB) (uid d : ℕ) : List FoodLog :=
  db.logs.filter (fun l => l.user_id == uid && l.date_logged == d)

namespace DailySummary

/-- `DailySummary.get_or_create`: the existing `(user, date)` row if any,
otherwise a fresh zeroed row whose goals come from the user (`ValueError`
when the user id resolves to no user). -/
def get_or_create (db : DB) (uid d : ℕ) : Except String (DailySummary × DB) :=
  match findSummary db uid d with
  | some s => Except.ok (s, db)
  | none =>
    match findUser db uid with
    | none => Except.error "User not found"
    | some user =>
      let s : DailySummary :=
        { user_id := uid
          date := d
          total_calories := 0
          total_protein := 0
          total_carbs := 0
          total_fat := 0
          calorie_goal := pyOr user.daily_calorie_goal 2000
          protein_goal := pyOr user.protein_goal 50
          carb_goal := pyOr user.carb_goal 200
          fat_goal := pyOr user.fat_goal 65
          meals_logged := 0 }
      Except.ok (s, { db with summaries := db.summaries ++ [s] })

/-- Committing the mutated summary row back to the store. -/
def setSummary (db : DB) (s' : DailySummary) : DB :=
  { db with
    summaries := db.summaries.map
      (fun t => if t.user_id == s'.user_id && t.date == s'.date then s' else t) }

/-- `DailySummary.update_from_logs`: full recomputation of the totals from
the date's logs, rounded to 1 decimal, and of the `meals_logged` count. -/
def update_from_logs (db : DB) (uid d : ℕ) : Except String (DailySummary × DB) :=
  match get_or_create db uid d with
  | Except.error e => Except.error e
  | Except.ok (s, db1) =>
    let logs := logsFor db1 uid d
    let s' : DailySummary :=
      { s with
        total_calories := pyRound (logs.map (fun l => l.calories_consumed)).sum 1
        total_protein := pyRound (logs.map (fun l => l.protein_consumed)).sum 1
        total_carbs := pyRound (logs.map (fun l => l.carbs_consumed)).sum 1
        total_fat := pyRound (logs.map (fun l => l.fat_consumed)).sum 1
        meals_logged := logs.length }
    Except.ok (s', setSummary db1 s')

/-- `DailySummary.calorie_percentage` with the fallible Python division. -/
def calorie_percentage (s : DailySummary) : Except String ℚ :=
  if s.calorie_goal = 0 then Except.ok 0
  else do
    let r ← pydiv s.total_calories s.calorie_goal
    Except.ok (pyRound (r * 100) 1)

/-- `DailySummary.protein_percentage`. -/
def protein_percentage (s : DailySummary) : Except String ℚ :=
  if s.protein_goal = 0 then Except.ok 0
  else do
    let r ← pydiv s.total_protein s.protein_goal
    Except.ok (pyRound (r * 100) 1)

/-- `DailySummary.carb_percentage`. -/
def carb_percentage (s : DailySummary) : Except String ℚ :=
  if s.carb_goal = 0 then Except.ok 0
  else do
    let r ← pydiv s.total_carbs s.carb_goal
    Except.ok (pyRound (r * 100) 1)

/-- `DailySummary.fat_percentage`. -/
def fat_percentage (s : DailySummary) : Except String ℚ :=
  if s.fat_goal = 0 then Except.ok 0
  else do
    let r ← pydiv s.total_fat s.fat_goal
    Except.ok (pyRound (r * 100) 1)

/-- `DailySummary.calories_remaining`. -/
def calories_remaining (s : DailySummary) : ℚ :=
  max 0 (s.calorie_goal - s.total_calories)

end DailySummary

/-! ### Helper lemmas about the rounding model -/

/-- A rational with at most one decimal digit. -/
def OneDecimal (q : ℚ) : Prop := (q * 10).den = 1

instance : DecidablePred OneDecimal := fun q => by
  unfold OneDecimal; infer_instance

theorem pyRoundInt_intCast (n : ℤ) : pyRoundInt (n : ℚ) = n := by
  unfold pyRoundInt
  rw [Int.floor_intCast]
  norm_num

theorem pyRound_oneDecimal {q : ℚ} (h : OneDecimal q) : pyRound q 1 = q := by
  unfold OneDecimal at h
  unfold pyRound
  have h10 : ((q * 10).num : ℚ) = q * 10 := (Rat.den_eq_one_iff _).mp h
  rw [pow_one, ← h10, pyRoundInt_intCast, h10]
  ring

theorem oneDecimal_add {a b : ℚ} (ha : OneDecimal a) (hb : OneDecimal b) :
    OneDecimal (a + b) := by
  unfold OneDecimal at *
  have h1 : ((a * 10).num : ℚ) = a * 10 := (Rat.den_eq_one_iff _).mp ha
  have h2 : ((b * 10).num : ℚ) = b * 10 := (Rat.den_eq_one_iff _).mp hb
  have : (a + b) * 10 = (((a * 10).num + (b * 10).num : ℤ) : ℚ) := by
    push_cast
    rw [h1, h2]; ring
  rw [this, Rat.den_intCast]

theorem oneDecimal_zero : OneDecimal 0 := by
  unfold OneDecimal; norm_num

theorem oneDecimal_sum {l : List ℚ} (h : ∀ x ∈ l, OneDecimal x) : OneDecimal l.sum := by
  induction l with
  | nil => simpa using oneDecimal_zero
  | cons a t ih =>
    rw [List.sum_cons]
    exact oneDecimal_add (h a (List.mem_cons_self a t))
      (ih (fun x hx => h x (List.mem_cons_of_mem a hx)))

theorem abs_pyRoundInt_sub (q : ℚ) : |((pyRoundInt q : ℤ) : ℚ) - q| ≤ 1/2 := by
  unfold pyRoundInt
  have hf0 : (0 : ℚ) ≤ q - ⌊q⌋ := by
    have := Int.floor_le q
    linarith
  have hf1 : q - ⌊q⌋ < 1 := by
    have := Int.lt_floor_add_one q
    linarith
  split_ifs with h1 h2 h3
  · rw [abs_sub_comm]
    rw [abs_of_nonneg hf0]
    linarith
  · rw [abs_of_nonneg (by push_cast; linarith)]
    push_cast
    linarith
  · rw [abs_sub_comm]
    rw [abs_of_nonneg hf0]
    linarith
  · rw [abs_of_nonneg (by push_cast; linarith)]
    push_cast
    linarith

theorem abs_pyRound_sub (q : ℚ) : |pyRound q 1 - q| ≤ 1/20 := by
  unfold pyRound
  have h := abs_pyRoundInt_sub (q * 10)
  rw [pow_one]
  have : ((pyRoundInt (q * 10) : ℤ) : ℚ) / 10 - q = (((pyRoundInt (q * 10) : ℤ) : ℚ) - q * 10) / 10 := by
    ring
  rw [this, abs_div]
  rw [abs_of_pos (by norm_num : (0:ℚ) < 10)]
  linarith

/-! ### C1: Scenario A BMR / TDEE values -/

/-- The Scenario A profile: weight 70 kg, height 170 cm, age 30, Male,
Sedentary. -/
def scenarioAUser : User :=
  { id := 1
    gender := "Male"
    age := 30
    height := 170
    weight := 70
    activity_level := "Sedentary"
    food_preferences := "Vegetarian"
    is_diabetic := false
    disliked_foods := none
    daily_calorie_goal := none
    protein_goal := none
    carb_goal := none
    fat_goal := none }

/-- C1 (counterexample): for weight=70, height=170, age=30, Male, Sedentary
the BMR function does NOT return 1673.75 with TDEE 2008.5: the male branch
10·70 + 6.25·170 − 5·30 + 5 evaluates to 1617.5, not 1673.75. -/
theorem scenarioA_claim_false :
    ¬(scenarioAUser.calculate_bmr = 1673.75 ∧ scenarioAUser.calculate_tdee = 2008.5) := by
  have hg : pyLower scenarioAUser.gender = "male" := by decide
  intro h
  obtain ⟨h1, h2⟩ := h
  rw [User.calculate_bmr, if_pos hg] at h1
  norm_num [scenarioAUser] at h1

/-- C1 (amended): for the Scenario A profile the BMR function returns
1617.5 and the TDEE function (BMR × 1.2 for Sedentary) returns 1941.0. -/
theorem scenarioA_bmr_tdee :
    scenarioAUser.calculate_bmr = 1617.5 ∧ scenarioAUser.calculate_tdee = 1941 := by
  have hg : pyLower scenarioAUser.gender = "male" := by decide
  have hb : scenarioAUser.calculate_bmr = 1617.5 := by
    rw [User.calculate_bmr, if_pos hg]
    norm_num [scenarioAUser]
  refine ⟨hb, ?_⟩
  rw [User.calculate_tdee, hb]
  norm_num [scenarioAUser, User.activity_multiplier]

/-! ### C5: nutrition scaling -/

theorem pyRoundInt_eq_down {q : ℚ} {n : ℤ} (h1 : (n : ℚ) ≤ q) (h2 : q < (n : ℚ) + 1/2) :
    pyRoundInt q = n := by
  have hf : ⌊q⌋ = n := Int.floor_eq_iff.mpr ⟨h1, by linarith⟩
  unfold pyRoundInt
  rw [hf]
  have c1 : q - (n : ℚ) < 1/2 := by linarith
  rw [if_pos c1]

theorem pyRoundInt_eq_up {q : ℚ} {n : ℤ} (h1 : (n : ℚ) + 1/2 < q) (h2 : q < (n : ℚ) + 1) :
    pyRoundInt q = n + 1 := by
  have hf : ⌊q⌋ = n := Int.floor_eq_iff.mpr ⟨by linarith, by linarith⟩
  unfold pyRoundInt
  rw [hf]
  have c1 : ¬(q - (n : ℚ) < 1/2) := by linarith
  have c2 : 1/2 < q - (n : ℚ) := by linarith
  rw [if_neg c1, if_pos c2]

/-- A 1 kcal/100g catalog entry used to exhibit the rounding
non-linearity. -/
def lemonWater : Food :=
  { id := 20
    name := "Lemon Water"
    name_hindi := none
    category := "Beverages"
    food_type := "Vegetarian"
    calories_per_100g := 1
    protein_per_100g := 0
    carbs_per_100g := 0.3
    fat_per_100g := 0
    fiber_per_100g := 0
    gi_index := none
    description := none
    is_active := true }

/-- C5 (counterexample): scaling is NOT linear through the 1-decimal
rounding: at 24 g the food yields 0.2 rounded calories, at 48 g it yields
0.5, and 0.5 ≠ 2 × 0.2. -/
theorem calculate_nutrition_not_linear :
    (lemonWater.calculate_nutrition 48).calories ≠
      2 * (lemonWater.calculate_nutrition 24).calories := by
  have e1 : pyRound ((1 : ℚ) * (48 / 100)) 1 = 1/2 := by
    unfold pyRound
    have h : (1 : ℚ) * (48 / 100) * 10 ^ 1 = 24/5 := by norm_num
    rw [h, pyRoundInt_eq_up (n := 4) (by norm_num) (by norm_num)]
    norm_num
  have e2 : pyRound ((1 : ℚ) * (24 / 100)) 1 = 1/5 := by
    unfold pyRound
    have h : (1 : ℚ) * (24 / 100) * 10 ^ 1 = 12/5 := by norm_num
    rw [h, pyRoundInt_eq_down (n := 2) (by norm_num) (by norm_num)]
    norm_num
  simp only [Food.calculate_nutrition, lemonWater]
  rw [e1, e2]
  norm_num

/-- C5 (amended): scaling by 100 g returns exactly the per-100g values
rounded to 1 decimal, and scaling is linear up to rounding error: the
calories at quantity 2x differ from twice the calories at quantity x by at
most 0.15 (each rounding step moves a value by at most 0.05). -/
theorem calculate_nutrition_spec (f : Food) (x : ℚ) :
    (f.calculate_nutrition 100).calories = pyRound f.calories_per_100g 1 ∧
    (f.calculate_nutrition 100).protein = pyRound f.protein_per_100g 1 ∧
    (f.calculate_nutrition 100).carbs = pyRound f.carbs_per_100g 1 ∧
    (f.calculate_nutrition 100).fat = pyRound f.fat_per_100g 1 ∧
    (f.calculate_nutrition 100).fiber = pyRound f.fiber_per_100g 1 ∧
    |(f.calculate_nutrition (2 * x)).calories -
        2 * (f.calculate_nutrition x).calories| ≤ 3/20 := by
  have h100 : (100 : ℚ) / 100 = 1 := by norm_num
  refine ⟨?_, ?_, ?_, ?_, ?_, ?_⟩
  · simp [Food.calculate_nutrition, h100]
  · simp [Food.calculate_nutrition, h100]
  · simp [Food.calculate_nutrition, h100]
  · simp [Food.calculate_nutrition, h100]
  · simp [Food.calculate_nutrition, h100]
  · simp only [Food.calculate_nutrition]
    have ha := abs_pyRound_sub (f.calories_per_100g * (2 * x / 100))
    have hb := abs_pyRound_sub (f.calories_per_100g * (x / 100))
    have key : pyRound (f.calories_per_100g * (2 * x / 100)) 1 -
        2 * pyRound (f.calories_per_100g * (x / 100)) 1 =
        (pyRound (f.calories_per_100g * (2 * x / 100)) 1 -
          f.calories_per_100g * (2 * x / 100)) -
        2 * (pyRound (f.calories_per_100g * (x / 100)) 1 -
          f.calories_per_100g * (x / 100)) := by
      ring
    rw [key]
    have tri : |(pyRound (f.calories_per_100g * (2 * x / 100)) 1 -
          f.calories_per_100g * (2 * x / 100)) -
        2 * (pyRound (f.calories_per_100g * (x / 100)) 1 -
          f.calories_per_100g * (x / 100))| ≤
        |pyRound (f.calories_per_100g * (2 * x / 100)) 1 -
          f.calories_per_100g * (2 * x / 100)| +
        |2 * (pyRound (f.calories_per_100g * (x / 100)) 1 -
          f.calories_per_100g * (x / 100))| := by
      rw [sub_eq_add_neg]
      refine le_trans (abs_add _ _) ?_
      rw [abs_neg]
    have h2 : |2 * (pyRound (f.calories_per_100g * (x / 100)) 1 -
        f.calories_per_100g * (x / 100))| =
        2 * |pyRound (f.calories_per_100g * (x / 100)) 1 -
          f.calories_per_100g * (x / 100)| := by
      rw [abs_mul]
      norm_num
    rw [h2] at tri
    linarith

/-! ### C4: suitability predicate characterization -/

/-- C4: the suitability predicate returns False exactly when one of the
four rejection conditions holds — Vegetarian preference with a
non-Vegetarian food, Eggetarian preference with a Non-Vegetarian food,
diabetic user with a known glycemic index above 55, or a disliked food
id — and True otherwise; an unknown (null) GI never causes a rejection. -/
theorem is_suitable_for_user_iff (f : Food) (u : User) :
    f.is_suitable_for_user u = true ↔
      ¬(u.food_preferences = "Vegetarian" ∧ f.food_type ≠ "Vegetarian") ∧
      ¬(u.food_preferences = "Eggetarian" ∧ f.food_type = "Non-Vegetarian") ∧
      ¬(u.is_diabetic = true ∧ ∃ gi, f.gi_index = some gi ∧ 55 < gi) ∧
      (f.id : ℤ) ∉ u.get_disliked_foods := by
  unfold Food.is_suitable_for_user Food.is_suitable_for_diabetic
  cases hgi : f.gi_index with
  | none =>
    cases hd : u.is_diabetic <;> simp [hgi, hd] <;> tauto
  | some gi =>
    cases hd : u.is_diabetic <;> simp [hgi, hd] <;> tauto

/-- A concrete instance of the C4 characterization: a GI-80 food is
rejected for a diabetic user and accepted for a matching non-diabetic
user. -/
theorem is_suitable_for_user_iff_witness :
    (⟨30, "White Bread", none, "Bakery", "Vegetarian", 265, 9, 49, 3.2, 2.7,
        some 80, none, true⟩ : Food).is_suitable_for_user
      { scenarioAUser with is_diabetic := true } = false := by
  have h := is_suitable_for_user_iff
    ⟨30, "White Bread", none, "Bakery", "Vegetarian", 265, 9, 49, 3.2, 2.7,
      some 80, none, true⟩
    { scenarioAUser with is_diabetic := true }
  by_contra hcon
  have hb : (⟨30, "White Bread", none, "Bakery", "Vegetarian", 265, 9, 49, 3.2, 2.7,
      some 80, none, true⟩ : Food).is_suitable_for_user
      { scenarioAUser with is_diabetic := true } = true := by
    revert hcon
    cases (⟨30, "White Bread", none, "Bakery", "Vegetarian", 265, 9, 49, 3.2, 2.7,
        some 80, none, true⟩ : Food).is_suitable_for_user
        { scenarioAUser with is_diabetic := true } <;> simp
  have := (h.mp hb).2.2.1
  exact this ⟨rfl, 80, rfl, by norm_num⟩

/-! ### C8: zero-division guards -/

/-- The dashboard summary used as the rounding counterexample: 1 kcal
consumed against a 3 kcal goal. -/
def summaryC8 : DailySummary := ⟨1, 0, 1, 0, 0, 0, 3, 50, 200, 65, 1⟩

/-- C8 (counterexample): with total 1 and goal 3 the helper returns the
1-decimal rounding 33.3, not the exact consumed/goal×100 = 33.333…. -/
theorem calorie_percentage_counterexample :
    DailySummary.calorie_percentage summaryC8 ≠
      Except.ok (summaryC8.total_calories / summaryC8.calorie_goal * 100) := by
  have h1 : pyRound ((1 : ℚ)/3 * 100) 1 = 333/10 := by
    unfold pyRound
    have h : (1 : ℚ)/3 * 100 * 10 ^ 1 = 1000/3 := by norm_num
    rw [h, pyRoundInt_eq_down (n := 333) (by norm_num) (by norm_num)]
    norm_num
  have hp : pydiv summaryC8.total_calories summaryC8.calorie_goal = Except.ok (1/3) := by
    unfold pydiv
    rw [if_neg (by norm_num [summaryC8])]
    norm_num [summaryC8]
  unfold DailySummary.calorie_percentage
  rw [if_neg (by norm_num [summaryC8]), hp]
  simp only [bind, Except.bind, h1]
  simp [summaryC8]
  norm_num

/-- C8 (amended): every goal-percentage helper returns `ok 0` when its
goal is 0 and otherwise `ok` of consumed/goal×100 rounded to 1 decimal; no
helper ever raises the division error; `calories_remaining` is
max(0, goal − total); the nutrition-density function returns `ok 0` on
zero calories and otherwise `ok` of protein/calories×100 rounded to 2
decimals. -/
theorem percentage_and_density_guards (s : DailySummary) (f : Food) :
    DailySummary.calorie_percentage s =
      Except.ok (if s.calorie_goal = 0 then 0
        else pyRound (s.total_calories / s.calorie_goal * 100) 1) ∧
    DailySummary.protein_percentage s =
      Except.ok (if s.protein_goal = 0 then 0
        else pyRound (s.total_protein / s.protein_goal * 100) 1) ∧
    DailySummary.carb_percentage s =
      Except.ok (if s.carb_goal = 0 then 0
        else pyRound (s.total_carbs / s.carb_goal * 100) 1) ∧
    DailySummary.fat_percentage s =
      Except.ok (if s.fat_goal = 0 then 0
        else pyRound (s.total_fat / s.fat_goal * 100) 1) ∧
    DailySummary.calories_remaining s = max 0 (s.calorie_goal - s.total_calories) ∧
    Food.get_nutrition_density f =
      Except.ok (if f.calories_per_100g = 0 then 0
        else pyRound (f.protein_per_100g / f.calories_per_100g * 100) 2) := by
  refine ⟨?_, ?_, ?_, ?_, rfl, ?_⟩
  · by_cases h : s.calorie_goal = 0 <;>
      simp [DailySummary.calorie_percentage, pydiv, h, bind, Except.bind]
  · by_cases h : s.protein_goal = 0 <;>
      simp [DailySummary.protein_percentage, pydiv, h, bind, Except.bind]
  · by_cases h : s.carb_goal = 0 <;>
      simp [DailySummary.carb_percentage, pydiv, h, bind, Except.bind]
  · by_cases h : s.fat_goal = 0 <;>
      simp [DailySummary.fat_percentage, pydiv, h, bind, Except.bind]
  · by_cases h : f.calories_per_100g = 0 <;>
      simp [Food.get_nutrition_density, pydiv, h, bind, Except.bind]

/-- A concrete instance of the C8 guards: with a zero calorie goal the
percentage helper returns `ok 0` rather than an error. -/
theorem percentage_and_density_guards_witness :
    DailySummary.calorie_percentage ⟨1, 0, 500, 0, 0, 0, 0, 0, 0, 0, 1⟩ =
      Except.ok 0 := by
  have h := (percentage_and_density_guards ⟨1, 0, 500, 0, 0, 0, 0, 0, 0, 0, 1⟩
    ⟨31, "Black Coffee", none, "Beverages", "Vegetarian", 0, 0, 0, 0, 0, none, none, true⟩).1
  simpa using h

/-! ### C9: serving-unit heuristic priority -/

/-- A catalog entry whose name matches the "biryani" keyword while its
category is Vegetables. -/
def vegetableBiryani : Food :=
  ⟨41, "Vegetable Biryani", none, "Vegetables", "Vegetarian", 150, 4, 25, 3, 2, none, none, true⟩

/-- The ten rule outcomes of `Food.get_serving_units`, in rule order. -/
def servingRules : List ServingUnits :=
  [⟨"piece", 30, [1, 2, 3, 4, 5, 6]⟩,
   ⟨"cup", 150, [0.5, 1, 1.5, 2]⟩,
   ⟨"cup", 200, [0.5, 1, 1.5, 2]⟩,
   ⟨"piece", 40, [1, 2, 3, 4, 5, 6]⟩,
   ⟨"piece", 25, [1, 2, 3, 4, 5, 6]⟩,
   ⟨"piece", 20, [1, 2, 3, 4, 5, 10]⟩,
   ⟨"cup", 150, [1, 1.5, 2, 2.5, 3]⟩,
   ⟨"cup", 150, [0.5, 1, 1.5, 2]⟩,
   ⟨"piece", 100, [0.5, 1, 1.5, 2, 3]⟩,
   ⟨"grams", 1, [50, 100, 150, 200, 250]⟩]

/-- C9: the serving-unit heuristic evaluates its rules in fixed priority
order with the first match winning — "Vegetable Biryani" (category
Vegetables) gets the biryani keyword rule (cup, 150 g), every food gets
exactly one of the ten rule outcomes, any food matching the first keyword
group gets the piece/30 rule regardless of the rest, and a food matching
no keyword group and neither special category gets the grams fallback. -/
theorem get_serving_units_priority :
    (Food.get_serving_units vegetableBiryani = ⟨"cup", 150, [0.5, 1, 1.5, 2]⟩ ∧
      vegetableBiryani.category = "Vegetables" ∧
      strContains (pyLower vegetableBiryani.name) "biryani" = true) ∧
    (∀ f : Food, Food.get_serving_units f ∈ servingRules) ∧
    (∀ f : Food,
      ["idli", "dosa", "vada", "uttapam", "dhokla", "khandvi"].any
          (fun w => strContains (pyLower f.name) w) = true →
      Food.get_serving_units f = ⟨"piece", 30, [1, 2, 3, 4, 5, 6]⟩) ∧
    (∀ f : Food,
      ["idli", "dosa", "vada", "uttapam", "dhokla", "khandvi"].any
          (fun w => strContains (pyLower f.name) w) = false →
      ["rice", "biryani", "pulao", "kheer", "pongal"].any
          (fun w => strContains (pyLower f.name) w) = false →
      ["dal", "curry", "sabzi", "sambar", "rasam", "kadhi"].any
          (fun w => strContains (pyLower f.name) w) = false →
      ["roti", "chapati", "naan", "paratha", "puri", "kulcha"].any
          (fun w => strContains (pyLower f.name) w) = false →
      ["laddu", "halwa", "burfi", "gulab jamun", "rasgulla", "sweet"].any
          (fun w => strContains (pyLower f.name) w) = false →
      ["samosa", "pakora", "bhel", "chat", "namkeen"].any
          (fun w => strContains (pyLower f.name) w) = false →
      ["tea", "coffee", "juice", "milk", "drink"].any
          (fun w => strContains (pyLower f.name) w) = false →
      f.category ≠ "Vegetables" → f.category ≠ "Fruits" →
      Food.get_serving_units f = ⟨"grams", 1, [50, 100, 150, 200, 250]⟩) := by
  refine ⟨⟨by rfl, rfl, by decide⟩, ?_, ?_, ?_⟩
  · intro f
    have step : ∀ (c : Prop) (inst : Decidable c) (a b : ServingUnits),
        a ∈ servingRules → b ∈ servingRules → (@ite _ c inst a b) ∈ servingRules := by
      intro c inst a b ha hb
      by_cases h : c <;> simp [h, ha, hb]
    unfold Food.get_serving_units
    refine step _ _ _ _ (by simp [servingRules])
      (step _ _ _ _ (by simp [servingRules])
        (step _ _ _ _ (by simp [servingRules])
          (step _ _ _ _ (by simp [servingRules])
            (step _ _ _ _ (by simp [servingRules])
              (step _ _ _ _ (by simp [servingRules])
                (step _ _ _ _ (by simp [servingRules])
                  (step _ _ _ _ (by simp [servingRules])
                    (step _ _ _ _ (by simp [servingRules]) (by simp [servingRules])))))))))
  · intro f h
    simp [Food.get_serving_units, h]
  · intro f h1 h2 h3 h4 h5 h6 h7 hc1 hc2
    simp [Food.get_serving_units, h1, h2, h3, h4, h5, h6, h7, hc1, hc2]

/-- A concrete instance of the C9 priority rules: "Masala Dosa" hits the
first keyword group. -/
theorem get_serving_units_priority_witness :
    Food.get_serving_units
      ⟨42, "Masala Dosa", none, "South Indian", "Vegetarian", 168, 4, 29, 4, 2, some 77, none, true⟩ =
      ⟨"piece", 30, [1, 2, 3, 4, 5, 6]⟩ :=
  get_serving_units_priority.2.2.1
    ⟨42, "Masala Dosa", none, "South Indian", "Vegetarian", 168, 4, 29, 4, 2, some 77, none, true⟩
    (by decide)

/-! ### C10: corrupted dislike data -/

/-- C10: for a null, empty, or unparseable `disliked_foods` column (the
inputs on which `json.loads` raises `JSONDecodeError`), the dislike value
is the empty list — both the raw `json.loads` layer and the id set the
suitability predicate consumes — and the suitability predicate with the
faithful fallible dislike check returns `ok` of the Boolean predicate's
answer (no parse error and no `TypeError` propagates), which is exactly
its behavior for a user with no dislike data at all. -/
theorem get_disliked_foods_corrupt (stored : Option String)
    (h : stored = none ∨ stored = some "" ∨
      ∃ s, stored = some s ∧ jsonParse s = none) :
    (∀ u : User, u.disliked_foods = stored →
      u.get_disliked_foods_json = Json.arr [] ∧ u.get_disliked_foods = []) ∧
    (∀ (u : User) (f : Food), u.disliked_foods = stored →
      f.is_suitable_for_user_py u = Except.ok (f.is_suitable_for_user u) ∧
      f.is_suitable_for_user u =
        f.is_suitable_for_user { u with disliked_foods := none }) := by
  have hraw : ∀ u : User, u.disliked_foods = stored →
      u.get_disliked_foods_json = Json.arr [] := by
    intro u hu
    rcases h with h1 | h2 | ⟨s, hs, hp⟩
    · simp [User.get_disliked_foods_json, hu, h1]
    · simp [User.get_disliked_foods_json, hu, h2]
    · rw [hs] at hu
      by_cases he : s = "" <;> simp [User.get_disliked_foods_json, hu, he, hp]
  have hlist : ∀ u : User, u.disliked_foods = stored → u.get_disliked_foods = [] := by
    intro u hu
    unfold User.get_disliked_foods
    rw [hraw u hu]
    simp [jsonIntElems]
  refine ⟨fun u hu => ⟨hraw u hu, hlist u hu⟩, ?_⟩
  intro u f hu
  have hj := hraw u hu
  have hl := hlist u hu
  have h2 : ({ u with disliked_foods := none } : User).get_disliked_foods = [] := by
    simp [User.get_disliked_foods, User.get_disliked_foods_json, jsonIntElems]
  constructor
  · unfold Food.is_suitable_for_user_py Food.is_suitable_for_user
    rw [hj, hl]
    split_ifs with hc1 hc2 hc3 hc4
    · rfl
    · rfl
    · rfl
    · simp at hc4
    · simp [pyIn, bind, Except.bind]
  · unfold Food.is_suitable_for_user
    rw [hl, h2]

/-- A concrete instance of the C10 guarantee at the malformed JSON text
`[007]` (a leading-zero number, which `json.loads` rejects). -/
theorem get_disliked_foods_corrupt_witness :
    ({ scenarioAUser with disliked_foods := some "[007]" } : User).get_disliked_foods = [] :=
  ((get_disliked_foods_corrupt (some "[007]")
      (Or.inr (Or.inr ⟨"[007]", rfl,
        Option.isNone_iff_eq_none.mp (by decide)⟩))).1
    { scenarioAUser with disliked_foods := some "[007]" } rfl).2

/-! ### C7: get_or_create -/

/-- A user whose stored calorie goal is the falsy value 0.0. -/
def userC7 : User :=
  ⟨1, "Female", 25, 160, 55, "Sedentary", "Vegetarian", false, none,
    some 0, some 50, some 200, some 65⟩

/-- A store holding only `userC7`, with no summaries. -/
def dbC7 : DB := ⟨[userC7], [], [], []⟩

/-- C7 (counterexample): for a user whose stored daily_calorie_goal is 0,
the created summary's calorie_goal is 2000, not the user's stored value —
Python `x or default` substitutes the default for the falsy 0.0, not only
for an unset goal. -/
theorem get_or_create_goal_zero :
    userC7.daily_calorie_goal = some 0 ∧
    (DailySummary.get_or_create dbC7 1 0).map (fun p => p.1.calorie_goal) =
      Except.ok 2000 := by
  refine ⟨rfl, ?_⟩
  unfold DailySummary.get_or_create findSummary findUser
  simp [dbC7, userC7, pyOr, Except.map]

/-- C7 (amended): get_or_create returns the existing (user, date) summary
when one exists; otherwise it creates one with zeroed totals and goals
taken from the user's current goal fields, substituting 2000/50/200/65
when the corresponding goal is unset or stored as 0 (Python falsiness);
for a user id that refers to no user it fails with "User not found"
instead of substituting defaults. -/
theorem get_or_create_spec (db : DB) (uid d : ℕ) :
    (∀ s, findSummary db uid d = some s →
      DailySummary.get_or_create db uid d = Except.ok (s, db)) ∧
    (findSummary db uid d = none → findUser db uid = none →
      DailySummary.get_or_create db uid d = Except.error "User not found") ∧
    (∀ u, findSummary db uid d = none → findUser db uid = some u →
      ∃ s db2, DailySummary.get_or_create db uid d = Except.ok (s, db2) ∧
        s.user_id = uid ∧ s.date = d ∧
        s.total_calories = 0 ∧ s.total_protein = 0 ∧ s.total_carbs = 0 ∧
        s.total_fat = 0 ∧ s.meals_logged = 0 ∧
        s.calorie_goal = pyOr u.daily_calorie_goal 2000 ∧
        s.protein_goal = pyOr u.protein_goal 50 ∧
        s.carb_goal = pyOr u.carb_goal 200 ∧
        s.fat_goal = pyOr u.fat_goal 65) ∧
    (∀ (o : Option ℚ) (dflt : ℚ),
      (∀ g : ℚ, o = some g → g ≠ 0 → pyOr o dflt = g) ∧
      ((o = none ∨ o = some 0) → pyOr o dflt = dflt)) := by
  refine ⟨?_, ?_, ?_, ?_⟩
  · intro s hs
    unfold DailySummary.get_or_create
    rw [hs]
  · intro h1 h2
    unfold DailySummary.get_or_create
    rw [h1, h2]
  · intro u h1 h2
    unfold DailySummary.get_or_create
    rw [h1, h2]
    exact ⟨_, _, rfl, rfl, rfl, rfl, rfl, rfl, rfl, rfl, rfl, rfl, rfl, rfl⟩
  · intro o dflt
    constructor
    · intro g hg hgo
      simp [pyOr, hg, hgo]
    · intro h
      rcases h with h | h <;> simp [pyOr, h]

/-- A concrete instance of the C7 behavior: an unknown user id is a
definite "not found" failure. -/
theorem get_or_create_spec_witness :
    DailySummary.get_or_create ⟨[], [], [], []⟩ 1 0 = Except.error "User not found" :=
  (get_or_create_spec ⟨[], [], [], []⟩ 1 0).2.1 rfl rfl

/-! ### C6: search ordering, limit, and late suitability filtering -/

theorem charListLe_total : ∀ as bs : List Char, charListLe as bs = true ∨ charListLe bs as = true := by
  intro as
  induction as with
  | nil => intro bs; left; rfl
  | cons a as ih =>
    intro bs
    cases bs with
    | nil => right; rfl
    | cons b bs =>
      rcases lt_trichotomy a b with h | h | h
      · left; simp [charListLe, h]
      · subst h
        rcases ih bs with h2 | h2
        · left; simp [charListLe, h2]
        · right; simp [charListLe, h2]
      · right; simp [charListLe, h]

theorem charListLe_trans : ∀ as bs cs : List Char,
    charListLe as bs = true → charListLe bs cs = true → charListLe as cs = true := by
  intro as
  induction as with
  | nil => intro bs cs _ _; rfl
  | cons a as ih =>
    intro bs cs h1 h2
    cases bs with
    | nil => simp [charListLe] at h1
    | cons b bs =>
      cases cs with
      | nil => simp [charListLe] at h2
      | cons c cs =>
        simp only [charListLe, Bool.or_eq_true, Bool.and_eq_true, beq_iff_eq,
          decide_eq_true_eq] at h1 h2 ⊢
        rcases h1 with h1 | ⟨h1e, h1r⟩
        · rcases h2 with h2 | ⟨h2e, h2r⟩
          · exact Or.inl (lt_trans h1 h2)
          · exact Or.inl (h2e ▸ h1)
        · rcases h2 with h2 | ⟨h2e, h2r⟩
          · exact Or.inl (h1e ▸ h2)
          · exact Or.inr ⟨h1e.trans h2e, ih bs cs h1r h2r⟩

instance : IsTotal Food Food.nameLe :=
  ⟨fun a b => charListLe_total a.name.toList b.name.toList⟩

instance : IsTrans Food Food.nameLe :=
  ⟨fun a b c h1 h2 => charListLe_trans a.name.toList b.name.toList c.name.toList h1 h2⟩

/-- A Non-Vegetarian food whose name sorts first. -/
def applePie : Food :=
  ⟨51, "Apple Pie", none, "Desserts", "Non-Vegetarian", 300, 2, 40, 15, 1, none, none, true⟩

/-- A Vegetarian food that matches the same query but sorts second. -/
def banana : Food :=
  ⟨52, "Banana", none, "Fruits", "Vegetarian", 89, 1.1, 23, 0.3, 2.6, some 51, none, true⟩

/-- A two-food catalog exhibiting the post-limit filtering. -/
def searchCatalog : List Food := [applePie, banana]

/-- A Vegetarian-preference user for the search demonstration. -/
def searchUser : User :=
  ⟨2, "Female", 25, 160, 55, "Sedentary", "Vegetarian", false, none, none, none, none, none⟩


theorem mem_optFilter {f : Food} {l : List Food} {o : Option String}
    {p : String → Food → Bool} (h : f ∈ Food.optFilter l o p) : f ∈ l := by
  cases o with
  | none => exact h
  | some s =>
    by_cases hs : s = ""
    · simpa [Food.optFilter, hs] using h
    · have h2 := h
      simp only [Food.optFilter, if_neg hs] at h2
      exact (List.mem_filter.mp h2).1

theorem mem_optFilter_prop {f : Food} {l : List Food} {s : String}
    {p : String → Food → Bool} (hs : s ≠ "")
    (h : f ∈ Food.optFilter l (some s) p) : p s f = true := by
  simp only [Food.optFilter, if_neg hs] at h
  exact (List.mem_filter.mp h).2

theorem mem_searchFilter {f : Food} {catalog : List Food} {q cat ft : Option String}
    (h : f ∈ Food.searchFilter catalog q cat ft) :
    f ∈ catalog ∧ f.is_active = true ∧
      (∀ s, q = some s → s ≠ "" → Food.textMatch s f = true) := by
  unfold Food.searchFilter at h
  have h2 := mem_optFilter h
  have h1 := mem_optFilter h2
  have h0 := mem_optFilter h1
  obtain ⟨hc, ha⟩ := List.mem_filter.mp h0
  refine ⟨hc, ha, ?_⟩
  intro s hq hs
  rw [hq] at h1
  exact mem_optFilter_prop hs h1

/-- C6: a user-scoped search returns only active, query-matching,
user-suitable foods, in name-ascending order, capped at `limit`; and the
suitability filter runs only after the limit-bounded slice, so on the
two-food demo catalog the Vegetarian user's limit-1 search for "a" comes
back empty even though "Banana" is an active, suitable match appearing
after the first unfiltered result. -/
theorem search_spec (catalog : List Food) (q : String) (u : User)
    (cat ft : Option String) (limit : ℕ) :
    (Food.search catalog (some q) (some u) cat ft limit).length ≤ limit ∧
    (∀ f ∈ Food.search catalog (some q) (some u) cat ft limit,
      f.is_active = true ∧ (q ≠ "" → Food.textMatch q f = true) ∧
        f.is_suitable_for_user u = true) ∧
    List.Sorted Food.nameLe (Food.search catalog (some q) (some u) cat ft limit) ∧
    (Food.search searchCatalog (some "a") (some searchUser) none none 1 = [] ∧
      (Food.search searchCatalog (some "a") none none none 2).map (fun f => f.id) =
        [51, 52] ∧
      banana.is_suitable_for_user searchUser = true ∧
      banana.is_active = true ∧ Food.textMatch "a" banana = true) := by
  have hsearch : Food.search catalog (some q) (some u) cat ft limit =
      ((List.insertionSort Food.nameLe
        (Food.searchFilter catalog (some q) cat ft)).take limit).filter
        (fun f => f.is_suitable_for_user u) := rfl
  refine ⟨?_, ?_, ?_, by decide, by decide, by decide, by decide, by decide⟩
  · rw [hsearch]
    exact le_trans (List.length_filter_le _ _) (List.length_take_le _ _)
  · intro f hf
    rw [hsearch] at hf
    obtain ⟨hlim, hsuit⟩ := List.mem_filter.mp hf
    have hsort : f ∈ List.insertionSort Food.nameLe (Food.searchFilter catalog (some q) cat ft) :=
      (List.take_sublist _ _).subset hlim
    obtain ⟨_, ha, hm⟩ := mem_searchFilter ((List.mem_insertionSort _).mp hsort)
    exact ⟨ha, fun hq => hm q rfl hq, hsuit⟩
  · rw [hsearch]
    exact List.Pairwise.sublist
      ((List.filter_sublist _).trans (List.take_sublist _ _))
      (List.sorted_insertionSort Food.nameLe _)

/-- A concrete instance of the C6 length cap. -/
theorem search_spec_witness :
    (Food.search searchCatalog (some "a") (some searchUser) none none 1).length ≤ 1 :=
  (search_spec searchCatalog "a" searchUser none none 1).1

/-! ### C2: recommendation selector -/

theorem mem_typeFilterQ {u : User} {l : List Food} {f : Food}
    (h : f ∈ Food.typeFilterQ u l) :
    f ∈ l ∧ (u.food_preferences = "Vegetarian" → f.food_type = "Vegetarian") ∧
      (u.food_preferences = "Eggetarian" →
        f.food_type = "Vegetarian" ∨ f.food_type = "Eggetarian") := by
  unfold Food.typeFilterQ at h
  by_cases hV : u.food_preferences = "Vegetarian"
  · rw [if_pos hV] at h
    obtain ⟨hm, hp⟩ := List.mem_filter.mp h
    simp only [beq_iff_eq] at hp
    refine ⟨hm, fun _ => hp, fun hE => ?_⟩
    rw [hV] at hE
    simp at hE
  · rw [if_neg hV] at h
    by_cases hE : u.food_preferences = "Eggetarian"
    · rw [if_pos hE] at h
      obtain ⟨hm, hp⟩ := List.mem_filter.mp h
      simp only [Bool.or_eq_true, beq_iff_eq] at hp
      exact ⟨hm, fun hV2 => absurd hV2 hV, fun _ => hp⟩
    · rw [if_neg hE] at h
      exact ⟨h, fun hV2 => absurd hV2 hV, fun hE2 => absurd hE2 hE⟩

theorem mem_giFilterQ {u : User} {l : List Food} {f : Food}
    (h : f ∈ Food.giFilterQ u l) :
    f ∈ l ∧ (u.is_diabetic = true → f.is_suitable_for_diabetic = true) := by
  unfold Food.giFilterQ at h
  by_cases hd : u.is_diabetic = true
  · rw [if_pos hd] at h
    obtain ⟨hm, hp⟩ := List.mem_filter.mp h
    refine ⟨hm, fun _ => ?_⟩
    unfold Food.is_suitable_for_diabetic
    cases hgi : f.gi_index with
    | none => rfl
    | some gi =>
      rw [hgi] at hp
      simpa using hp
  · rw [if_neg (by simpa using hd)] at h
    exact ⟨h, fun hd2 => absurd hd2 hd⟩

theorem mem_dislikeFilterQ {u : User} {l : List Food} {f : Food}
    (h : f ∈ Food.dislikeFilterQ u l) :
    f ∈ l ∧ (f.id : ℤ) ∉ u.get_disliked_foods := by
  unfold Food.dislikeFilterQ at h
  by_cases he : u.get_disliked_foods.isEmpty
  · rw [if_pos he] at h
    refine ⟨h, ?_⟩
    rw [List.isEmpty_iff] at he
    simp [he]
  · rw [if_neg he] at h
    obtain ⟨hm, hp⟩ := List.mem_filter.mp h
    refine ⟨hm, ?_⟩
    simpa using hp

theorem mem_mealFilterQ {mt : Option String} {l : List Food} {f : Food}
    (h : f ∈ Food.mealFilterQ mt l) : f ∈ l := by
  cases mt with
  | none => simpa [Food.mealFilterQ] using h
  | some m =>
    by_cases hm : m = ""
    · simpa [Food.mealFilterQ, hm] using h
    · have h2 := h
      simp only [Food.mealFilterQ, if_neg hm] at h2
      exact (List.mem_filter.mp h2).1

theorem mem_recommendBase {catalog : List Food} {u : User} {mt : Option String} {f : Food}
    (h : f ∈ Food.recommendBase catalog u mt) :
    f ∈ catalog ∧ f.is_active = true ∧
      (u.food_preferences = "Vegetarian" → f.food_type = "Vegetarian") ∧
      (u.food_preferences = "Eggetarian" →
        f.food_type = "Vegetarian" ∨ f.food_type = "Eggetarian") ∧
      (u.is_diabetic = true → f.is_suitable_for_diabetic = true) ∧
      (f.id : ℤ) ∉ u.get_disliked_foods := by
  unfold Food.recommendBase at h
  have h1 := mem_mealFilterQ h
  obtain ⟨h2, hdis⟩ := mem_dislikeFilterQ h1
  obtain ⟨h3, hgi⟩ := mem_giFilterQ h2
  obtain ⟨h4, hV, hE⟩ := mem_typeFilterQ h3
  obtain ⟨hc, ha⟩ := List.mem_filter.mp h4
  exact ⟨hc, ha, hV, hE, hgi, hdis⟩

/-- Every food passing the recommendation query filters satisfies the full
suitability predicate. -/
theorem recommendBase_suitable {catalog : List Food} {u : User} {mt : Option String} {f : Food}
    (h : f ∈ Food.recommendBase catalog u mt) : f.is_suitable_for_user u = true := by
  obtain ⟨_, _, hV, hE, hD, hN⟩ := mem_recommendBase h
  have c1 : ¬(u.food_preferences = "Vegetarian" ∧ f.food_type ≠ "Vegetarian") := by
    rintro ⟨hp, hft⟩
    exact hft (hV hp)
  have c2 : ¬(u.food_preferences = "Eggetarian" ∧ f.food_type = "Non-Vegetarian") := by
    rintro ⟨hp, hft⟩
    rcases hE hp with h' | h' <;> rw [h'] at hft <;> simp at hft
  unfold Food.is_suitable_for_user
  split_ifs with a b c d
  · simp only [Bool.and_eq_true, decide_eq_true_eq] at a
    exact absurd ⟨a.1, a.2⟩ c1
  · simp only [Bool.and_eq_true, decide_eq_true_eq] at b
    exact absurd ⟨b.1, b.2⟩ c2
  · simp only [Bool.and_eq_true, Bool.not_eq_true'] at c
    rw [hD c.1] at c
    simp at c
  · simp only [List.contains, List.elem_eq_mem, decide_eq_true_eq] at d
    exact absurd d hN
  · rfl

/-- C2: for every profile, optional meal type and limit, the selector
returns at most `limit` foods, every returned food passes the full
suitability predicate, and whenever at least `limit` suitable
preferred-category foods pass the meal-type pre-filter the result contains
preferred-category foods only. -/
theorem get_recommended_spec (catalog : List Food) (u : User)
    (mt : Option String) (limit : ℕ) :
    (Food.get_recommended_for_user catalog u mt limit).length ≤ limit ∧
    (∀ f ∈ Food.get_recommended_for_user catalog u mt limit,
      f.is_suitable_for_user u = true) ∧
    (limit ≤ ((Food.recommendBase catalog u mt).filter
        (fun f => Food.preferredCategories.contains f.category)).length →
      ∀ f ∈ Food.get_recommended_for_user catalog u mt limit,
        Food.preferredCategories.contains f.category = true) := by
  have hr : Food.get_recommended_for_user catalog u mt limit =
      if ((List.insertionSort Food.prefLe
            ((Food.recommendBase catalog u mt).filter
              (fun f => Food.preferredCategories.contains f.category))).take limit).length <
          limit then
        ((List.insertionSort Food.prefLe
            ((Food.recommendBase catalog u mt).filter
              (fun f => Food.preferredCategories.contains f.category))).take limit) ++
          (List.insertionSort Food.densityGe
            ((Food.recommendBase catalog u mt).filter
              (fun f => !(Food.preferredCategories.contains f.category)))).take
            (limit - ((List.insertionSort Food.prefLe
              ((Food.recommendBase catalog u mt).filter
                (fun f => Food.preferredCategories.contains f.category))).take limit).length)
      else
        (List.insertionSort Food.prefLe
          ((Food.recommendBase catalog u mt).filter
            (fun f => Food.preferredCategories.contains f.category))).take limit := rfl
  set base := Food.recommendBase catalog u mt with hbase
  set south := (List.insertionSort Food.prefLe
    (base.filter (fun f => Food.preferredCategories.contains f.category))).take limit with hsouth
  set other := (List.insertionSort Food.densityGe
    (base.filter (fun f => !(Food.preferredCategories.contains f.category)))).take
    (limit - south.length) with hother
  have hslen : south.length ≤ limit := List.length_take_le _ _
  have holen : other.length ≤ limit - south.length := List.length_take_le _ _
  have hmem_south : ∀ f ∈ south, f ∈ base ∧
      Food.preferredCategories.contains f.category = true := by
    intro f hf
    have h1 : f ∈ List.insertionSort Food.prefLe
        (base.filter (fun f => Food.preferredCategories.contains f.category)) :=
      (List.take_sublist _ _).subset hf
    have h2 := (List.mem_insertionSort _).mp h1
    exact ⟨(List.mem_filter.mp h2).1, (List.mem_filter.mp h2).2⟩
  have hmem_other : ∀ f ∈ other, f ∈ base := by
    intro f hf
    have h1 : f ∈ List.insertionSort Food.densityGe
        (base.filter (fun f => !(Food.preferredCategories.contains f.category))) :=
      (List.take_sublist _ _).subset hf
    exact (List.mem_filter.mp ((List.mem_insertionSort _).mp h1)).1
  refine ⟨?_, ?_, ?_⟩
  · rw [hr]
    by_cases hc : south.length < limit
    · rw [if_pos hc]
      rw [List.length_append]
      omega
    · rw [if_neg hc]
      exact hslen
  · intro f hf
    rw [hr] at hf
    by_cases hc : south.length < limit
    · rw [if_pos hc] at hf
      rcases List.mem_append.mp hf with h | h
      · exact recommendBase_suitable (hmem_south f h).1
      · exact recommendBase_suitable (hmem_other f h)
    · rw [if_neg hc] at hf
      exact recommendBase_suitable (hmem_south f hf).1
  · intro hp f hf
    have hfull : south.length = limit := by
      rw [hsouth, List.length_take]
      rw [(List.perm_insertionSort Food.prefLe
        (base.filter (fun f => Food.preferredCategories.contains f.category))).length_eq]
      omega
    rw [hr] at hf
    rw [if_neg (by omega)] at hf
    exact (hmem_south f hf).2

/-- A concrete instance of the C2 length bound. -/
theorem get_recommended_spec_witness :
    (Food.get_recommended_for_user []
      ⟨3, "Female", 40, 165, 60, "Sedentary", "Vegetarian", false, none,
        none, none, none, none⟩ none 3).length ≤ 3 :=
  (get_recommended_spec []
    ⟨3, "Female", 40, 165, 60, "Sedentary", "Vegetarian", false, none,
      none, none, none, none⟩ none 3).1

/-! ### C3: daily summary aggregation -/

theorem pyRound_zero (n : ℕ) : pyRound 0 n = 0 := by
  unfold pyRound
  rw [zero_mul]
  have h0 : (0 : ℚ) = ((0 : ℤ) : ℚ) := by norm_num
  rw [h0, pyRoundInt_intCast]
  norm_num

/-- `get_or_create` never touches the logs, and on success the returned
summary carries the requested user/date key and is present in the store. -/
theorem get_or_create_ok {db : DB} {uid d : ℕ} {s : DailySummary} {db1 : DB}
    (h : DailySummary.get_or_create db uid d = Except.ok (s, db1)) :
    db1.logs = db.logs ∧ s.user_id = uid ∧ s.date = d ∧
      ∃ t ∈ db1.summaries, (t.user_id == uid && t.date == d) = true := by
  unfold DailySummary.get_or_create at h
  cases hfs : findSummary db uid d with
  | some s0 =>
    rw [hfs] at h
    simp only [Except.ok.injEq, Prod.mk.injEq] at h
    obtain ⟨hs, hdb⟩ := h
    have hfs' := hfs
    unfold findSummary at hfs'
    have hp := List.find?_some hfs'
    have hmem := List.mem_of_find?_eq_some hfs'
    simp only [Bool.and_eq_true, Nat.beq_eq_true_eq] at hp
    subst hs
    subst hdb
    exact ⟨rfl, hp.1, hp.2, s0, hmem, by simp [hp.1, hp.2]⟩
  | none =>
    rw [hfs] at h
    cases hfu : findUser db uid with
    | none =>
      rw [hfu] at h
      simp at h
    | some u =>
      rw [hfu] at h
      simp only [Except.ok.injEq, Prod.mk.injEq] at h
      obtain ⟨hs, hdb⟩ := h
      subst hs
      subst hdb
      refine ⟨rfl, rfl, rfl, ?_⟩
      refine ⟨⟨uid, d, 0, 0, 0, 0, pyOr u.daily_calorie_goal 2000,
        pyOr u.protein_goal 50, pyOr u.carb_goal 200, pyOr u.fat_goal 65, 0⟩, ?_, ?_⟩
      · exact List.mem_append_right _ (List.mem_singleton.mpr rfl)
      · simp

/-- Committing the replacement row makes it the row the next lookup
finds. -/
theorem find?_map_replace {p : DailySummary → Bool} {s' : DailySummary}
    (hp : p s' = true) :
    ∀ l : List DailySummary, (∃ t ∈ l, p t = true) →
      (l.map (fun t => if p t then s' else t)).find? p = some s' := by
  intro l
  induction l with
  | nil =>
    rintro ⟨t, ht, _⟩
    cases ht
  | cons a as ih =>
    rintro ⟨t, ht, hpt⟩
    by_cases ha : p a = true
    · simp [List.find?_cons, ha, hp]
    · have ha' : p a = false := by
        cases hpa : p a
        · rfl
        · exact absurd hpa ha
      have hhead : (if p a = true then s' else a) = a := by simp [ha']
      simp only [List.map_cons, hhead]
      simp only [List.find?_cons, ha']
      apply ih
      rcases List.mem_cons.mp ht with heq | hmem
      · rw [heq] at hpt
        exact absurd hpt ha
      · exact ⟨t, hmem, hpt⟩

/-- On success, `update_from_logs` sets each total to the 1-decimal
rounding of the corresponding sum over the date's logs, sets
`meals_logged` to the log count, leaves the log set unchanged, and leaves
the recomputed summary in the store. -/
theorem update_from_logs_ok {db : DB} {uid d : ℕ} {s : DailySummary} {db2 : DB}
    (h : DailySummary.update_from_logs db uid d = Except.ok (s, db2)) :
    s.total_calories =
      pyRound ((logsFor db uid d).map (fun l => l.calories_consumed)).sum 1 ∧
    s.total_protein =
      pyRound ((logsFor db uid d).map (fun l => l.protein_consumed)).sum 1 ∧
    s.total_carbs =
      pyRound ((logsFor db uid d).map (fun l => l.carbs_consumed)).sum 1 ∧
    s.total_fat =
      pyRound ((logsFor db uid d).map (fun l => l.fat_consumed)).sum 1 ∧
    s.meals_logged = (logsFor db uid d).length ∧
    db2.logs = db.logs ∧
    findSummary db2 uid d = some s := by
  unfold DailySummary.update_from_logs at h
  cases hg : DailySummary.get_or_create db uid d with
  | error e =>
    rw [hg] at h
    simp at h
  | ok p =>
    obtain ⟨s0, db1⟩ := p
    rw [hg] at h
    simp only [Except.ok.injEq, Prod.mk.injEq] at h
    obtain ⟨hs, hdb⟩ := h
    obtain ⟨hlogs1, huid, hdate, t, htmem, htp⟩ := get_or_create_ok hg
    have hlogsFor : logsFor db1 uid d = logsFor db uid d := by
      unfold logsFor
      rw [hlogs1]
    subst hs
    subst hdb
    refine ⟨by simp [hlogsFor], by simp [hlogsFor], by simp [hlogsFor],
      by simp [hlogsFor], by simp [hlogsFor],
      by simp [DailySummary.setSummary, hlogs1], ?_⟩
    unfold DailySummary.setSummary findSummary
    simp only
    have h1 : ∀ q : DailySummary,
        (q.user_id == uid && q.date == d) = true → q.user_id = uid ∧ q.date = d := by
      intro q hq
      simpa using hq
    rw [show ({ s0 with
        total_calories :=
          pyRound ((logsFor db1 uid d).map (fun l => l.calories_consumed)).sum 1
        total_protein :=
          pyRound ((logsFor db1 uid d).map (fun l => l.protein_consumed)).sum 1
        total_carbs :=
          pyRound ((logsFor db1 uid d).map (fun l => l.carbs_consumed)).sum 1
        total_fat :=
          pyRound ((logsFor db1 uid d).map (fun l => l.fat_consumed)).sum 1
        meals_logged := (logsFor db1 uid d).length } : DailySummary).user_id = uid
      from huid]
    rw [show ({ s0 with
        total_calories :=
          pyRound ((logsFor db1 uid d).map (fun l => l.calories_consumed)).sum 1
        total_protein :=
          pyRound ((logsFor db1 uid d).map (fun l => l.protein_consumed)).sum 1
        total_carbs :=
          pyRound ((logsFor db1 uid d).map (fun l => l.carbs_consumed)).sum 1
        total_fat :=
          pyRound ((logsFor db1 uid d).map (fun l => l.fat_consumed)).sum 1
        meals_logged := (logsFor db1 uid d).length } : DailySummary).date = d
      from hdate]
    exact find?_map_replace (by simp [huid, hdate]) db1.summaries ⟨t, htmem, htp⟩

/-- C3: when every consumed field of the date's logs has at most one
decimal digit (as every log written through `create_from_food` does), a
successful `update_from_logs` sets the summary totals to the exact sums of
the corresponding consumed fields over the user's logs for that date — a
full replacement — and sets `meals_logged` to the count of those logs; a
second call on the resulting store succeeds and produces identical
totals. -/
theorem update_from_logs_spec (db : DB) (uid d : ℕ) (s : DailySummary) (db2 : DB)
    (h : DailySummary.update_from_logs db uid d = Except.ok (s, db2))
    (ht : ∀ l ∈ logsFor db uid d, OneDecimal l.calories_consumed ∧
      OneDecimal l.protein_consumed ∧ OneDecimal l.carbs_consumed ∧
      OneDecimal l.fat_consumed) :
    s.total_calories = ((logsFor db uid d).map (fun l => l.calories_consumed)).sum ∧
    s.total_protein = ((logsFor db uid d).map (fun l => l.protein_consumed)).sum ∧
    s.total_carbs = ((logsFor db uid d).map (fun l => l.carbs_consumed)).sum ∧
    s.total_fat = ((logsFor db uid d).map (fun l => l.fat_consumed)).sum ∧
    s.meals_logged = (logsFor db uid d).length ∧
    (∃ s2 db3, DailySummary.update_from_logs db2 uid d = Except.ok (s2, db3) ∧
      s2.total_calories = s.total_calories ∧ s2.total_protein = s.total_protein ∧
      s2.total_carbs = s.total_carbs ∧ s2.total_fat = s.total_fat ∧
      s2.meals_logged = s.meals_logged) := by
  obtain ⟨hc, hpn, hcb, hft, hm, hlogs, hfind⟩ := update_from_logs_ok h
  have hsum : ∀ (g : FoodLog → ℚ), (∀ l ∈ logsFor db uid d, OneDecimal (g l)) →
      OneDecimal ((logsFor db uid d).map g).sum := by
    intro g hg
    apply oneDecimal_sum
    intro x hx
    obtain ⟨l, hl, rfl⟩ := List.mem_map.mp hx
    exact hg l hl
  have e1 : s.total_calories = ((logsFor db uid d).map (fun l => l.calories_consumed)).sum := by
    rw [hc, pyRound_oneDecimal (hsum _ (fun l hl => (ht l hl).1))]
  have e2 : s.total_protein = ((logsFor db uid d).map (fun l => l.protein_consumed)).sum := by
    rw [hpn, pyRound_oneDecimal (hsum _ (fun l hl => (ht l hl).2.1))]
  have e3 : s.total_carbs = ((logsFor db uid d).map (fun l => l.carbs_consumed)).sum := by
    rw [hcb, pyRound_oneDecimal (hsum _ (fun l hl => (ht l hl).2.2.1))]
  have e4 : s.total_fat = ((logsFor db uid d).map (fun l => l.fat_consumed)).sum := by
    rw [hft, pyRound_oneDecimal (hsum _ (fun l hl => (ht l hl).2.2.2))]
  refine ⟨e1, e2, e3, e4, hm, ?_⟩
  have hg2 : DailySummary.get_or_create db2 uid d = Except.ok (s, db2) := by
    unfold DailySummary.get_or_create
    rw [hfind]
  have hlogsFor2 : logsFor db2 uid d = logsFor db uid d := by
    unfold logsFor
    rw [hlogs]
  have hup2 : DailySummary.update_from_logs db2 uid d =
      Except.ok
        ({ s with
          total_calories :=
            pyRound ((logsFor db2 uid d).map (fun l => l.calories_consumed)).sum 1
          total_protein :=
            pyRound ((logsFor db2 uid d).map (fun l => l.protein_consumed)).sum 1
          total_carbs :=
            pyRound ((logsFor db2 uid d).map (fun l => l.carbs_consumed)).sum 1
          total_fat :=
            pyRound ((logsFor db2 uid d).map (fun l => l.fat_consumed)).sum 1
          meals_logged := (logsFor db2 uid d).length },
          DailySummary.setSummary db2
            { s with
              total_calories :=
                pyRound ((logsFor db2 uid d).map (fun l => l.calories_consumed)).sum 1
              total_protein :=
                pyRound ((logsFor db2 uid d).map (fun l => l.protein_consumed)).sum 1
              total_carbs :=
                pyRound ((logsFor db2 uid d).map (fun l => l.carbs_consumed)).sum 1
              total_fat :=
                pyRound ((logsFor db2 uid d).map (fun l => l.fat_consumed)).sum 1
              meals_logged := (logsFor db2 uid d).length }) := by
    unfold DailySummary.update_from_logs
    rw [hg2]
  refine ⟨_, _, hup2, ?_, ?_, ?_, ?_, ?_⟩
  · show pyRound ((logsFor db2 uid d).map (fun l => l.calories_consumed)).sum 1 =
      s.total_calories
    rw [hlogsFor2, ← hc]
  · show pyRound ((logsFor db2 uid d).map (fun l => l.protein_consumed)).sum 1 =
      s.total_protein
    rw [hlogsFor2, ← hpn]
  · show pyRound ((logsFor db2 uid d).map (fun l => l.carbs_consumed)).sum 1 =
      s.total_carbs
    rw [hlogsFor2, ← hcb]
  · show pyRound ((logsFor db2 uid d).map (fun l => l.fat_consumed)).sum 1 =
      s.total_fat
    rw [hlogsFor2, ← hft]
  · show (logsFor db2 uid d).length = s.meals_logged
    rw [hlogsFor2, ← hm]

/-- A user with all goals set, for the aggregation witness. -/
def userC3 : User :=
  ⟨4, "Female", 30, 165, 60, "Sedentary", "Vegetarian", false, none,
    some 1800, some 60, some 220, some 60⟩

/-- A store holding `userC3` and no logs. -/
def dbC3 : DB := ⟨[userC3], [], [], []⟩

/-- The summary produced by updating `dbC3` for user 4, date 0. -/
def summaryC3 : DailySummary := ⟨4, 0, 0, 0, 0, 0, 1800, 60, 220, 60, 0⟩

/-- The store after that update. -/
def dbC3done : DB := ⟨[userC3], [], [], [summaryC3]⟩

/-- A concrete instance of the C3 aggregation: updating a store with no
logs yields zero totals and a zero meal count. -/
theorem update_from_logs_spec_witness :
    DailySummary.update_from_logs dbC3 4 0 = Except.ok (summaryC3, dbC3done) ∧
    summaryC3.total_calories =
      ((logsFor dbC3 4 0).map (fun l => l.calories_consumed)).sum ∧
    summaryC3.meals_logged = (logsFor dbC3 4 0).length := by
  have hup : DailySummary.update_from_logs dbC3 4 0 = Except.ok (summaryC3, dbC3done) := by
    unfold DailySummary.update_from_logs DailySummary.get_or_create
      DailySummary.setSummary findSummary findUser logsFor pyOr
    norm_num [dbC3, userC3, summaryC3, dbC3done, List.find?, pyRound_zero]
  have hspec := update_from_logs_spec dbC3 4 0 summaryC3 dbC3done hup
    (by intro l hl; simp [logsFor, dbC3] at hl)
  exact ⟨hup, hspec.1, hspec.2.2.2.2.1⟩
